import Mathlib

/-!
Verification of the dispatch scoring and blending engine of the
F-AI-ber-Force repository.

The embedding follows `src/business_rules.py` (rule-based probability,
category bucketing, probability blending), `src/calculate_historical_grades.py`
(the 0-100 dispatch grade), and the recommendation classifier of
`src/predict_current_dispatches.py` / `src/predict.py`.

Python floats are modelled as ℚ where the code only adds, compares and
clips, and as ℝ where the code calls `np.exp`.  Python dict indexing
(`d[k]`, which raises `KeyError` on a missing key) is modelled as an
association-list lookup returning `Option`; `d.get(k, default)` is the
total variant.  A pandas row is modelled as a record of optional fields,
`row.get(k, default)` becoming `Option.getD`.
-/

namespace FaiberForce

/-- A dispatch feature row: every field may be absent, as in a partially
populated pandas row.  `workload` is the row's `workload_ratio` column. -/
structure Row where
  skill_match : Option ℤ
  workload : Option ℚ
  distance : Option ℚ
  priority : Option String
  ticket_type : Option String

/-- `DispatchBusinessRules.base_success_rate` (business_rules.py line 26). -/
def base_success_rate : ℚ := 0.55

/-- `skill_match_boost` (line 30). -/
def skill_match_boost : ℚ := 0.37

/-- `skill_mismatch_penalty` (line 31). -/
def skill_mismatch_penalty : ℚ := -0.10

/-- `workload_thresholds` (lines 35-40): ordered intervals `[lo, hi)`,
`none` standing for `float('inf')`. -/
def workload_thresholds : List (String × ℚ × Option ℚ) :=
  [("low", 0, some 0.5),
   ("medium", 0.5, some 0.8),
   ("high", 0.8, some 1.0),
   ("overloaded", 1.0, none)]

/-- `workload_adjustments` (lines 41-46). -/
def workload_adjustments : List (String × ℚ) :=
  [("low", 0.32), ("medium", 0.30), ("high", -0.10), ("overloaded", -0.30)]

/-- `distance_thresholds` (lines 50-56). -/
def distance_thresholds : List (String × ℚ × Option ℚ) :=
  [("very_close", 0, some 10),
   ("close", 10, some 50),
   ("medium", 50, some 100),
   ("far", 100, some 500),
   ("very_far", 500, none)]

/-- `distance_adjustments` (lines 57-63). -/
def distance_adjustments : List (String × ℚ) :=
  [("very_close", 0.33), ("close", 0.05), ("medium", 0.00),
   ("far", -0.12), ("very_far", -0.30)]

/-- `priority_adjustments` (lines 66-71). -/
def priority_adjustments : List (String × ℚ) :=
  [("Low", 0.02), ("Normal", 0.00), ("High", -0.02), ("Critical", -0.05)]

/-- `ticket_type_adjustments` (lines 74-77). -/
def ticket_type_adjustments : List (String × ℚ) :=
  [("Order", 0.02), ("Trouble", -0.03)]

/-- The loop guard `min_val <= x < max_val` of the category loops,
with `max_val = none` standing for `float('inf')`. -/
def inInterval (x lo : ℚ) (hi : Option ℚ) : Bool :=
  decide (lo ≤ x) && (match hi with
    | none => true
    | some h => decide (x < h))

/-- The `for category, (min_val, max_val) in thresholds.items()` loop with
its early `return category`: first interval containing `x` wins. -/
def findCategory (x : ℚ) : List (String × ℚ × Option ℚ) → Option String
  | [] => none
  | (c, lo, hi) :: rest => if inInterval x lo hi then some c else findCategory x rest

/-- `get_workload_category` (lines 79-84): first matching interval's label,
falling back to `'medium'`. -/
def get_workload_category (workload : ℚ) : String :=
  (findCategory workload workload_thresholds).getD "medium"

/-- `get_distance_category` (lines 86-91). -/
def get_distance_category (distance : ℚ) : String :=
  (findCategory distance distance_thresholds).getD "medium"

/-- Python `d[k]` on an adjustment table: `none` models a `KeyError`. -/
def dictIndex (l : List (String × ℚ)) (k : String) : Option ℚ :=
  (l.find? (fun p => p.1 == k)).map (fun p => p.2)

/-- Python `d.get(k, default)` on an adjustment table. -/
def dictGetD (l : List (String × ℚ)) (k : String) (d : ℚ) : ℚ :=
  (dictIndex l k).getD d

/-- Scalar `np.clip(x, lo, hi)`: `min hi (max lo x)`. -/
def npClip (x lo hi : ℚ) : ℚ := min hi (max lo x)

/-- `calculate_rule_based_probability` (lines 93-132).  The two bare dict
indexings can in principle raise `KeyError`, hence the `Option` result;
the `.get` lookups with defaults are total. -/
def calculate_rule_based_probability (row : Row) : Option ℚ := do
  let prob0 := base_success_rate
  let prob1 := if row.skill_match.getD 0 == 1
    then prob0 + skill_match_boost
    else prob0 + skill_mismatch_penalty
  let workload_cat := get_workload_category (row.workload.getD 0.5)
  let wadj ← dictIndex workload_adjustments workload_cat
  let prob2 := prob1 + wadj
  let distance_cat := get_distance_category (row.distance.getD 50)
  let dadj ← dictIndex distance_adjustments distance_cat
  let prob3 := prob2 + dadj
  let prob4 := prob3 + dictGetD priority_adjustments (row.priority.getD "Normal") 0
  let prob5 := prob4 + dictGetD ticket_type_adjustments (row.ticket_type.getD "Order") 0
  return npClip prob5 0 1

/-- `blend_probabilities` (lines 198-210): a plain weighted sum with no
validation of `rule_weight`. -/
def blend_probabilities (ml_prob rule_prob rule_weight : ℚ) : ℚ :=
  rule_weight * rule_prob + (1 - rule_weight) * ml_prob

/-- The distance component of `calculate_dispatch_grade`
(calculate_historical_grades.py lines 27-39): exact 0 at ≥ 250 km,
otherwise exponential decay clamped to [0, 30]. -/
noncomputable def distance_score (distance : ℝ) : ℝ :=
  if distance ≥ 250 then 0
  else max 0 (min 30 (30 * Real.exp (-0.02 * distance)))

/-- The duration component (lines 41-57): bonus capped at 6 for early
finishes, linear penalty floored at 0 for late ones. -/
noncomputable def duration_score (overrun : ℝ) : ℝ :=
  if overrun ≤ 0 then 30 + min 6 (|overrun| / 30 * 6)
  else max 0 (30 - overrun * (30 / 90))

/-- `calculate_dispatch_grade` (lines 9-78): the four component scores
summed and capped at 100.  `success_prob = none` models Python `None`. -/
noncomputable def calculate_dispatch_grade (distance overrun productive_dispatch
    first_time_fix : ℝ) (use_probabilities : Bool) (success_prob : Option ℝ) : ℝ :=
  let productive_score :=
    match use_probabilities, success_prob with
    | true, some sp => sp * 25
    | _, _ => productive_dispatch * 25
  let ftf_score :=
    match use_probabilities, success_prob with
    | true, some sp => sp * 15
    | _, _ => first_time_fix * 15
  min 100 (distance_score distance + duration_score overrun + productive_score + ftf_score)

/-- The tier chain shared by `get_recommendation` in
predict_current_dispatches.py (lines 200-221) and predict.py (lines 164-187). -/
def recommendation_tier (prob : ℚ) : String :=
  if prob ≥ 0.8 then "PROCEED"
  else if prob ≥ 0.6 then "PROCEED WITH CAUTION"
  else if prob ≥ 0.4 then "REVIEW"
  else "DO NOT PROCEED"

/-- The duration-warning suffix of `get_recommendation`
(predict_current_dispatches.py line 218).  The source interpolates the
float `duration_diff` as `{duration_diff:.0f}`; that decimal rendering is
floating-point formatting and is abstracted to a fixed placeholder, the
claims under proof depending only on the suffix being appended. -/
def duration_warning_suffix : String := " (Warning: + min)"

/-- `get_recommendation` (predict_current_dispatches.py lines 200-221):
pick the tier from the blended probability, then append a duration
warning when the estimated run overshoots the expectation by more
than 30%. -/
def get_recommendation (prob duration_diff expected_duration : ℚ) : String :=
  let r := recommendation_tier prob
  if duration_diff > expected_duration * 0.3 then r ++ duration_warning_suffix else r

/-! ### Helper lemmas -/

lemma get_workload_category_eq (x : ℚ) :
    get_workload_category x =
      if x < 0 then "medium"
      else if x < 0.5 then "low"
      else if x < 0.8 then "medium"
      else if x < 1.0 then "high"
      else "overloaded" := by
  simp only [get_workload_category, workload_thresholds, findCategory, inInterval,
    Bool.and_true, Bool.and_eq_true, decide_eq_true_eq]
  rcases lt_or_le x 0 with h0 | h0
  · rw [if_neg (by rintro ⟨h, -⟩; linarith), if_neg (by rintro ⟨h, -⟩; linarith),
      if_neg (by rintro ⟨h, -⟩; linarith), if_neg (by intro h; linarith), if_pos h0]
    rfl
  · rw [if_neg (not_lt.mpr h0)]
    rcases lt_or_le x 0.5 with h1 | h1
    · rw [if_pos ⟨h0, h1⟩, if_pos h1]; rfl
    · rw [if_neg (by rintro ⟨-, h⟩; linarith), if_neg (not_lt.mpr h1)]
      rcases lt_or_le x 0.8 with h2 | h2
      · rw [if_pos ⟨h1, h2⟩, if_pos h2]; rfl
      · rw [if_neg (by rintro ⟨-, h⟩; linarith), if_neg (not_lt.mpr h2)]
        rcases lt_or_le x 1.0 with h3 | h3
        · rw [if_pos ⟨h2, h3⟩, if_pos h3]; rfl
        · rw [if_neg (by rintro ⟨-, h⟩; linarith), if_pos h3, if_neg (not_lt.mpr h3)]
          rfl

lemma get_distance_category_eq (x : ℚ) :
    get_distance_category x =
      if x < 0 then "medium"
      else if x < 10 then "very_close"
      else if x < 50 then "close"
      else if x < 100 then "medium"
      else if x < 500 then "far"
      else "very_far" := by
  simp only [get_distance_category, distance_thresholds, findCategory, inInterval,
    Bool.and_true, Bool.and_eq_true, decide_eq_true_eq]
  rcases lt_or_le x 0 with h0 | h0
  · rw [if_neg (by rintro ⟨h, -⟩; linarith), if_neg (by rintro ⟨h, -⟩; linarith),
      if_neg (by rintro ⟨h, -⟩; linarith), if_neg (by rintro ⟨h, -⟩; linarith),
      if_neg (by intro h; linarith), if_pos h0]
    rfl
  · rw [if_neg (not_lt.mpr h0)]
    rcases lt_or_le x 10 with h1 | h1
    · rw [if_pos ⟨h0, h1⟩, if_pos h1]; rfl
    · rw [if_neg (by rintro ⟨-, h⟩; linarith), if_neg (not_lt.mpr h1)]
      rcases lt_or_le x 50 with h2 | h2
      · rw [if_pos ⟨h1, h2⟩, if_pos h2]; rfl
      · rw [if_neg (by rintro ⟨-, h⟩; linarith), if_neg (not_lt.mpr h2)]
        rcases lt_or_le x 100 with h3 | h3
        · rw [if_pos ⟨h2, h3⟩, if_pos h3]; rfl
        · rw [if_neg (by rintro ⟨-, h⟩; linarith), if_neg (not_lt.mpr h3)]
          rcases lt_or_le x 500 with h4 | h4
          · rw [if_pos ⟨h3, h4⟩, if_pos h4]; rfl
          · rw [if_neg (by rintro ⟨-, h⟩; linarith), if_pos h4, if_neg (not_lt.mpr h4)]
            rfl

lemma workload_adj_exists (x : ℚ) :
    ∃ a, dictIndex workload_adjustments (get_workload_category x) = some a ∧
      -0.30 ≤ a ∧ a ≤ 0.32 := by
  rw [get_workload_category_eq]
  split_ifs <;> exact ⟨_, rfl, by norm_num, by norm_num⟩

lemma distance_adj_exists (x : ℚ) :
    ∃ a, dictIndex distance_adjustments (get_distance_category x) = some a ∧
      -0.30 ≤ a ∧ a ≤ 0.33 := by
  rw [get_distance_category_eq]
  split_ifs <;> exact ⟨_, rfl, by norm_num, by norm_num⟩

lemma npClip_unit_bounds (x : ℚ) : 0 ≤ npClip x 0 1 ∧ npClip x 0 1 ≤ 1 :=
  ⟨le_min (by norm_num) (le_max_left 0 x), min_le_left 1 (max 0 x)⟩

lemma calculate_rule_based_probability_eq (row : Row) :
    calculate_rule_based_probability row =
      some (npClip
        (base_success_rate +
          (if row.skill_match.getD 0 == 1 then skill_match_boost else skill_mismatch_penalty) +
          (dictIndex workload_adjustments
            (get_workload_category (row.workload.getD 0.5))).getD 0 +
          (dictIndex distance_adjustments
            (get_distance_category (row.distance.getD 50))).getD 0 +
          dictGetD priority_adjustments (row.priority.getD "Normal") 0 +
          dictGetD ticket_type_adjustments (row.ticket_type.getD "Order") 0) 0 1) := by
  obtain ⟨a, ha, -, -⟩ := workload_adj_exists (row.workload.getD 0.5)
  obtain ⟨b, hb, -, -⟩ := distance_adj_exists (row.distance.getD 50)
  simp only [calculate_rule_based_probability, ha, hb, Option.getD_some, Option.bind_some,
    Option.some_bind, bind, Option.bind]
  split <;> rfl

lemma distance_score_nonneg (d : ℝ) : 0 ≤ distance_score d := by
  unfold distance_score
  split_ifs
  · exact le_refl 0
  · exact le_max_left 0 _

lemma duration_score_nonneg (ov : ℝ) : 0 ≤ duration_score ov := by
  unfold duration_score
  split_ifs with h
  · have h6 : 0 ≤ min 6 (|ov| / 30 * 6) := le_min (by norm_num) (by positivity)
    linarith
  · exact le_max_left 0 _

lemma distance_score_in_range (d : ℝ) (h0 : 0 ≤ d) (h250 : d < 250) :
    distance_score d = 30 * Real.exp (-0.02 * d) ∧
      0 < distance_score d ∧ distance_score d ≤ 30 := by
  have hexp : 0 < Real.exp (-0.02 * d) := Real.exp_pos _
  have hle : Real.exp (-0.02 * d) ≤ 1 := Real.exp_le_one_iff.mpr (by linarith)
  have heq : distance_score d = 30 * Real.exp (-0.02 * d) := by
    unfold distance_score
    rw [if_neg (not_le.mpr h250), min_eq_right (by linarith), max_eq_right (by linarith)]
  exact ⟨heq, by rw [heq]; positivity, by rw [heq]; linarith⟩

lemma distance_score_at_zero : distance_score 0 = 30 := by
  have h := (distance_score_in_range 0 (le_refl 0) (by norm_num)).1
  rw [h, mul_zero, Real.exp_zero, mul_one]

lemma duration_score_at_neg30 : duration_score (-30) = 36 := by
  unfold duration_score
  rw [if_pos (by norm_num : (-30:ℝ) ≤ 0), abs_of_nonpos (by norm_num : (-30:ℝ) ≤ 0)]
  norm_num

lemma duration_score_at_zero : duration_score 0 = 30 := by
  unfold duration_score
  rw [if_pos (le_refl (0:ℝ)), abs_zero]
  norm_num

lemma duration_score_at_90 : duration_score 90 = 0 := by
  unfold duration_score
  rw [if_neg (by norm_num : ¬(90:ℝ) ≤ 0)]
  norm_num

lemma duration_score_at_180 : duration_score 180 = 0 := by
  unfold duration_score
  rw [if_neg (by norm_num : ¬(180:ℝ) ≤ 0)]
  norm_num

/-! ### Claim theorems: the dispatch grade -/

/-- C3: for distance ≥ 0, any overrun, and productive / first-time-fix
signals in [0,1], `calculate_dispatch_grade` lies in [0,100]; the cap is
applied once after summing the four components, whose maxima add to 106:
at distance 0, overrun −30, productive 1, ftf 1 the uncapped sum is 106
and the returned grade is exactly 100. -/
theorem C3_grade_in_range (distance overrun productive first_time_fix : ℝ)
    (hd : 0 ≤ distance) (hp0 : 0 ≤ productive) (hp1 : productive ≤ 1)
    (hf0 : 0 ≤ first_time_fix) (hf1 : first_time_fix ≤ 1) :
    (0 ≤ calculate_dispatch_grade distance overrun productive first_time_fix false none ∧
      calculate_dispatch_grade distance overrun productive first_time_fix false none ≤ 100) ∧
    calculate_dispatch_grade 0 (-30) 1 1 false none = 100 ∧
    distance_score 0 + duration_score (-30) + 1 * 25 + 1 * 15 = 106 := by
  refine ⟨⟨?_, ?_⟩, ?_, ?_⟩
  · have h1 := distance_score_nonneg distance
    have h2 := duration_score_nonneg overrun
    have h3 : 0 ≤ productive * 25 := by positivity
    have h4 : 0 ≤ first_time_fix * 15 := by positivity
    exact le_min (by norm_num)
      (by show 0 ≤ distance_score distance + duration_score overrun +
            productive * 25 + first_time_fix * 15
          linarith)
  · exact min_le_left _ _
  · unfold calculate_dispatch_grade
    rw [distance_score_at_zero, duration_score_at_neg30]
    norm_num
  · rw [distance_score_at_zero, duration_score_at_neg30]
    norm_num

/-- Witness for C3 at distance 0, overrun −30, productive 1, ftf 1. -/
theorem C3_grade_in_range_witness :
    calculate_dispatch_grade 0 (-30) 1 1 false none = 100 :=
  (C3_grade_in_range 0 (-30) 1 1 (le_refl 0) (by norm_num) (by norm_num)
    (by norm_num) (by norm_num)).2.1

/-- C4: the distance component is exactly 0 for every distance ≥ 250
(taken on the branch that never evaluates the exponential); on [0,250) it
equals `30 * exp(-0.02 * d)` (the clamp to [0,30] being inactive there),
lies in (0,30], and is strictly decreasing in the distance. -/
theorem C4_distance_score_spec (d : ℝ) :
    (250 ≤ d → distance_score d = 0) ∧
    (0 ≤ d → d < 250 →
      distance_score d = max 0 (min 30 (30 * Real.exp (-0.02 * d))) ∧
      distance_score d = 30 * Real.exp (-0.02 * d) ∧
      0 < distance_score d ∧ distance_score d ≤ 30) ∧
    (∀ d2, 0 ≤ d → d < d2 → d2 < 250 → distance_score d2 < distance_score d) := by
  refine ⟨?_, ?_, ?_⟩
  · intro h
    unfold distance_score
    rw [if_pos h]
  · intro h0 h250
    obtain ⟨heq, hpos, hle⟩ := distance_score_in_range d h0 h250
    refine ⟨?_, heq, hpos, hle⟩
    unfold distance_score
    rw [if_neg (not_le.mpr h250)]
  · intro d2 h0 h12 h250
    have hd : d < 250 := lt_trans h12 h250
    have h02 : 0 ≤ d2 := le_trans h0 (le_of_lt h12)
    rw [(distance_score_in_range d h0 hd).1, (distance_score_in_range d2 h02 h250).1]
    have : Real.exp (-0.02 * d2) < Real.exp (-0.02 * d) :=
      Real.exp_lt_exp.mpr (by linarith)
    linarith

/-- Witness for C4 at distances 250 and 0 < 100. -/
theorem C4_distance_score_spec_witness :
    distance_score 250 = 0 ∧ distance_score 100 < distance_score 0 :=
  ⟨(C4_distance_score_spec 250).1 (le_refl 250),
    (C4_distance_score_spec 0).2.2 100 (le_refl 0) (by norm_num) (by norm_num)⟩

/-- C5: the duration component is `30 + min 6 (|overrun|/30*6)` whenever
overrun ≤ 0 (the boundary 0 included) and `max 0 (30 − overrun·(30/90))`
whenever overrun > 0; it is exactly 36 at −30, 30 at 0, 0 at +90, and
0 (not negative) at +180. -/
theorem C5_duration_score_spec (overrun : ℝ) :
    (overrun ≤ 0 → duration_score overrun = 30 + min 6 (|overrun| / 30 * 6)) ∧
    (0 < overrun → duration_score overrun = max 0 (30 - overrun * (30 / 90))) ∧
    duration_score (-30) = 36 ∧ duration_score 0 = 30 ∧
    duration_score 90 = 0 ∧ duration_score 180 = 0 := by
  refine ⟨?_, ?_, duration_score_at_neg30, duration_score_at_zero,
    duration_score_at_90, duration_score_at_180⟩
  · intro h
    unfold duration_score
    rw [if_pos h]
  · intro h
    unfold duration_score
    rw [if_neg (not_le.mpr h)]

/-- Witness for C5 at overruns −30 (early branch) and 180 (late branch). -/
theorem C5_duration_score_spec_witness :
    duration_score (-30) = 30 + min 6 (|(-30:ℝ)| / 30 * 6) ∧
    duration_score 180 = max 0 (30 - 180 * (30 / 90)) :=
  ⟨(C5_duration_score_spec (-30)).1 (by norm_num),
    (C5_duration_score_spec 180).2.1 (by norm_num)⟩

/-- C10: calling `calculate_dispatch_grade` with `use_probabilities = true`
but `success_prob = none` does not fail: both probability-mode guards fall
back to the observed signals, so the result coincides with the
`use_probabilities = false` call. -/
theorem C10_probability_mode_fallback (distance overrun productive first_time_fix : ℝ) :
    calculate_dispatch_grade distance overrun productive first_time_fix true none =
      calculate_dispatch_grade distance overrun productive first_time_fix false none ∧
    calculate_dispatch_grade distance overrun productive first_time_fix true none =
      min 100 (distance_score distance + duration_score overrun +
        productive * 25 + first_time_fix * 15) :=
  ⟨rfl, rfl⟩

lemma wadj_low : dictIndex workload_adjustments "low" = some 0.32 := rfl

lemma wadj_overloaded : dictIndex workload_adjustments "overloaded" = some (-0.30) := rfl

lemma dadj_close : dictIndex distance_adjustments "close" = some 0.05 := rfl

lemma dadj_very_far : dictIndex distance_adjustments "very_far" = some (-0.30) := rfl

lemma padj_normal : dictGetD priority_adjustments "Normal" 0 = 0.00 := rfl

lemma padj_critical : dictGetD priority_adjustments "Critical" 0 = -0.05 := rfl

lemma tadj_order : dictGetD ticket_type_adjustments "Order" 0 = 0.02 := rfl

lemma tadj_trouble : dictGetD ticket_type_adjustments "Trouble" 0 = -0.03 := rfl

/-! ### Claim theorems: rule-based probability, blending, categories -/

/-- C1: `calculate_rule_based_probability` returns the clip to [0,1] of
the base rate 0.55 plus the skill term (+0.37 if skill_match is 1, else
−0.10), the workload adjustment of the workload bucket (workload ratio
defaulting to 0.5), the distance adjustment of the distance bucket, the
priority adjustment (priority defaulting to "Normal", unknown priorities
contributing 0) and the ticket-type adjustment (ticket type defaulting to
"Order", unknown types contributing 0); on skill_match 1, workload 0.4,
distance 15, priority Normal, ticket type Order it returns exactly 1. -/
theorem C1_rule_probability_formula :
    (∀ row : Row, calculate_rule_based_probability row =
      some (npClip
        (base_success_rate +
          (if row.skill_match.getD 0 == 1 then skill_match_boost else skill_mismatch_penalty) +
          (dictIndex workload_adjustments
            (get_workload_category (row.workload.getD 0.5))).getD 0 +
          (dictIndex distance_adjustments
            (get_distance_category (row.distance.getD 50))).getD 0 +
          dictGetD priority_adjustments (row.priority.getD "Normal") 0 +
          dictGetD ticket_type_adjustments (row.ticket_type.getD "Order") 0) 0 1)) ∧
    calculate_rule_based_probability
      ⟨some 1, some 0.4, some 15, some "Normal", some "Order"⟩ = some 1 := by
  refine ⟨calculate_rule_based_probability_eq, ?_⟩
  rw [calculate_rule_based_probability_eq, get_workload_category_eq, get_distance_category_eq]
  simp only [Option.getD_some]
  rw [if_neg (by norm_num : ¬(0.4:ℚ) < 0), if_pos (by norm_num : (0.4:ℚ) < 0.5),
    if_neg (by norm_num : ¬(15:ℚ) < 0), if_neg (by norm_num : ¬(15:ℚ) < 10),
    if_pos (by norm_num : (15:ℚ) < 50), if_pos (by decide : (((1:ℤ) == 1) = true)),
    wadj_low, dadj_close, padj_normal, tadj_order]
  norm_num [npClip, base_success_rate, skill_match_boost, min_def, max_def]

/-- C2, counterexample: `blend_probabilities` does not reject an
out-of-range weight; at rule_weight 2 it simply returns the computed
blend 2·1 + (1−2)·0 = 2. -/
theorem C2_no_rejection_counterexample : blend_probabilities 0 1 2 = 2 := by
  norm_num [blend_probabilities]

/-- C2, amended: `blend_probabilities` performs no validation of
`rule_weight`; even for weights outside [0,1] it returns the weighted sum
`rule_weight * rule_prob + (1 - rule_weight) * ml_prob`, never raising. -/
theorem C2_blend_no_validation (ml_prob rule_prob rule_weight : ℚ)
    (h : rule_weight < 0 ∨ 1 < rule_weight) :
    blend_probabilities ml_prob rule_prob rule_weight =
      rule_weight * rule_prob + (1 - rule_weight) * ml_prob :=
  rfl

/-- Witness for the amended C2 at the out-of-range weight 2. -/
theorem C2_blend_no_validation_witness :
    blend_probabilities 0 1 2 = 2 * 1 + (1 - 2) * 0 :=
  C2_blend_no_validation 0 1 2 (Or.inr (by norm_num))

/-- C8: the blend is exactly `rule_weight * rule_prob +
(1 - rule_weight) * ml_prob`; at weight 1 it returns the rule probability
and at weight 0 the ML probability. -/
theorem C8_blend_convex_combination (ml_prob rule_prob rule_weight : ℚ) :
    blend_probabilities ml_prob rule_prob rule_weight =
        rule_weight * rule_prob + (1 - rule_weight) * ml_prob ∧
      blend_probabilities ml_prob rule_prob 1 = rule_prob ∧
      blend_probabilities ml_prob rule_prob 0 = ml_prob :=
  ⟨rfl, by norm_num [blend_probabilities], by norm_num [blend_probabilities]⟩

/-- C7: both category functions are total; every non-negative input gets
the label of the first half-open interval `[lo, hi)` containing it, each
boundary belonging to the bucket it starts, and an input matching no
interval (a negative one) gets the default label "medium". -/
theorem C7_category_totality (x : ℚ) :
    (0 ≤ x → get_workload_category x =
      (if x < 0.5 then "low" else if x < 0.8 then "medium"
       else if x < 1.0 then "high" else "overloaded")) ∧
    (x < 0 → get_workload_category x = "medium") ∧
    (0 ≤ x → get_distance_category x =
      (if x < 10 then "very_close" else if x < 50 then "close"
       else if x < 100 then "medium" else if x < 500 then "far" else "very_far")) ∧
    (x < 0 → get_distance_category x = "medium") := by
  refine ⟨?_, ?_, ?_, ?_⟩ <;> intro h
  · rw [get_workload_category_eq, if_neg (not_lt.mpr h)]
  · rw [get_workload_category_eq, if_pos h]
  · rw [get_distance_category_eq, if_neg (not_lt.mpr h)]
  · rw [get_distance_category_eq, if_pos h]

/-- Witness for C7: the boundary 0.5 starts the "medium" workload bucket,
and a negative distance falls through to the default label. -/
theorem C7_category_totality_witness :
    get_workload_category 0.5 = "medium" ∧ get_distance_category (-1) = "medium" := by
  constructor
  · have h := (C7_category_totality 0.5).1 (by norm_num)
    rw [h]
    norm_num
  · exact (C7_category_totality (-1)).2.2.2 (by norm_num)

/-- C9: for every row, however populated, the rule-based probability is
returned (no `KeyError` is reachable) and lies in [0,1]; in particular the
most adverse stack — skill mismatch, overloaded workload, very_far
distance, Critical priority, Trouble ticket — yields exactly 0. -/
theorem C9_rule_probability_unit_interval :
    (∀ row : Row, ∃ p, calculate_rule_based_probability row = some p ∧ 0 ≤ p ∧ p ≤ 1) ∧
    calculate_rule_based_probability
      ⟨some 0, some 1.2, some 600, some "Critical", some "Trouble"⟩ = some 0 := by
  refine ⟨fun row => ⟨_, calculate_rule_based_probability_eq row,
    (npClip_unit_bounds _).1, (npClip_unit_bounds _).2⟩, ?_⟩
  rw [calculate_rule_based_probability_eq, get_workload_category_eq, get_distance_category_eq]
  simp only [Option.getD_some]
  rw [if_neg (by norm_num : ¬(1.2:ℚ) < 0), if_neg (by norm_num : ¬(1.2:ℚ) < 0.5),
    if_neg (by norm_num : ¬(1.2:ℚ) < 0.8), if_neg (by norm_num : ¬(1.2:ℚ) < 1.0),
    if_neg (by norm_num : ¬(600:ℚ) < 0), if_neg (by norm_num : ¬(600:ℚ) < 10),
    if_neg (by norm_num : ¬(600:ℚ) < 50), if_neg (by norm_num : ¬(600:ℚ) < 100),
    if_neg (by norm_num : ¬(600:ℚ) < 500), if_neg (by decide : ¬((0:ℤ) == 1) = true),
    wadj_overloaded, dadj_very_far, padj_critical, tadj_trouble]
  norm_num [npClip, base_success_rate, skill_mismatch_penalty, min_def, max_def]

/-- C6: the recommendation tier is "PROCEED" iff probability ≥ 0.8,
"PROCEED WITH CAUTION" iff it is in [0.6, 0.8), "REVIEW" iff in
[0.4, 0.6), and "DO NOT PROCEED" iff below 0.4; when the duration
difference exceeds 30% of the expected duration the warning suffix is
appended to the tier label, which is otherwise returned unchanged. -/
theorem C6_recommendation_tiers (prob duration_diff expected_duration : ℚ)
    (hp0 : 0 ≤ prob) (hp1 : prob ≤ 1) :
    ((recommendation_tier prob = "PROCEED" ↔ 0.8 ≤ prob) ∧
     (recommendation_tier prob = "PROCEED WITH CAUTION" ↔ 0.6 ≤ prob ∧ prob < 0.8) ∧
     (recommendation_tier prob = "REVIEW" ↔ 0.4 ≤ prob ∧ prob < 0.6) ∧
     (recommendation_tier prob = "DO NOT PROCEED" ↔ prob < 0.4)) ∧
    get_recommendation prob duration_diff expected_duration =
      (if duration_diff > expected_duration * 0.3
        then recommendation_tier prob ++ duration_warning_suffix
        else recommendation_tier prob) := by
  refine ⟨⟨?_, ?_, ?_, ?_⟩, rfl⟩
  · unfold recommendation_tier
    split_ifs with ha hb hc
    · exact iff_of_true rfl ha
    · exact iff_of_false (by decide) ha
    · exact iff_of_false (by decide) ha
    · exact iff_of_false (by decide) ha
  · unfold recommendation_tier
    split_ifs with ha hb hc
    · exact iff_of_false (by decide) (by rintro ⟨-, h⟩; exact absurd ha (not_le.mpr h))
    · exact iff_of_true rfl ⟨hb, not_le.mp ha⟩
    · exact iff_of_false (by decide) (fun h => hb h.1)
    · exact iff_of_false (by decide) (fun h => hb h.1)
  · unfold recommendation_tier
    split_ifs with ha hb hc
    · exact iff_of_false (by decide) (by rintro ⟨-, h⟩; exact absurd ha (not_le.mpr (by linarith)))
    · exact iff_of_false (by decide) (by rintro ⟨-, h⟩; exact absurd hb (not_le.mpr h))
    · exact iff_of_true rfl ⟨hc, not_le.mp hb⟩
    · exact iff_of_false (by decide) (fun h => hc h.1)
  · unfold recommendation_tier
    split_ifs with ha hb hc
    · exact iff_of_false (by decide) (not_lt.mpr (by linarith))
    · exact iff_of_false (by decide) (not_lt.mpr (by linarith))
    · exact iff_of_false (by decide) (not_lt.mpr (by linarith))
    · exact iff_of_true rfl (not_le.mp hc)

/-- Witness for C6 at the boundary probability 0.8 and just below it. -/
theorem C6_recommendation_tiers_witness :
    recommendation_tier 0.8 = "PROCEED" ∧
    recommendation_tier 0.79999 = "PROCEED WITH CAUTION" :=
  ⟨((C6_recommendation_tiers 0.8 0 0 (by norm_num) (by norm_num)).1.1).mpr (by norm_num),
   ((C6_recommendation_tiers 0.79999 0 0 (by norm_num) (by norm_num)).1.2.1).mpr
     (by norm_num)⟩

end FaiberForce
